import Mathlib

/-!
# Verification of the regular-polygon geometry engine of PolygonInteractiveApp

Shallow embedding of `src/poly.py`. The Python floats are modelled as real
numbers; `math.tan`, `math.sin`, `math.cos`, `math.pi` become `Real.tan`,
`Real.sin`, `Real.cos`, `Real.pi`. A Python function that can `return None`
is modelled with `Option`; nothing in the source raises an exception.
-/

open Real

noncomputable section

/-- The record returned by `calculate_polygon_properties` (the dict literal at
`src/poly.py` lines 74-81, fields in the dict's order). -/
structure PolygonProperties where
  interior_angle : ℝ
  exterior_angle : ℝ
  perimeter : ℝ
  area : ℝ
  central_angle : ℝ
  apothem : ℝ

/-- Embedding of `calculate_polygon_properties(n_sides, side_length)`
(`src/poly.py` lines 53-81): returns `None` when `n_sides < 3`, otherwise the
property record computed by the formulas of lines 59-72.  `n_sides` is a Python
int, modelled as `ℤ`; `side_length` is a float, modelled as `ℝ`. -/
def calculate_polygon_properties (n_sides : ℤ) (side_length : ℝ) :
    Option PolygonProperties :=
  if n_sides < 3 then none
  else
    let interior_angle : ℝ := ((n_sides : ℝ) - 2) * 180 / (n_sides : ℝ)
    let exterior_angle : ℝ := 360 / (n_sides : ℝ)
    let perimeter : ℝ := (n_sides : ℝ) * side_length
    let apothem : ℝ := side_length / (2 * Real.tan (Real.pi / (n_sides : ℝ)))
    let area : ℝ := 0.5 * perimeter * apothem
    let central_angle : ℝ := 360 / (n_sides : ℝ)
    some ⟨interior_angle, exterior_angle, perimeter, area, central_angle, apothem⟩

/-- The point placed at index `k` by `create_regular_polygon`
(`src/poly.py` lines 85-87): `np.linspace(0, 2*np.pi, n_sides + 1)` puts angle
`k * 2π / n_sides` at index `k`, and the point is
`center + radius * (cos θ, sin θ)`. -/
def polyVertex (n_sides : ℕ) (center : ℝ × ℝ) (radius : ℝ) (k : ℕ) : ℝ × ℝ :=
  (center.1 + radius * Real.cos (2 * Real.pi * k / n_sides),
   center.2 + radius * Real.sin (2 * Real.pi * k / n_sides))

/-- Embedding of `create_regular_polygon(n_sides, center, radius)`
(`src/poly.py` lines 83-88): the list of `n_sides + 1` points at the angles of
`np.linspace(0, 2*np.pi, n_sides + 1)`.  No input validation is performed. -/
def create_regular_polygon (n_sides : ℕ) (center : ℝ × ℝ) (radius : ℝ) :
    List (ℝ × ℝ) :=
  (List.range (n_sides + 1)).map (polyVertex n_sides center radius)

/-- The point placed at index `k` by the art-mode loop
(`src/poly.py` lines 556-558): angle `k * 2π / sides + radians(rotation)`,
point `radius * (cos θ, sin θ)` (no center offset in that loop). -/
def artVertex (sides : ℕ) (radius rotation : ℝ) (k : ℕ) : ℝ × ℝ :=
  (radius * Real.cos (2 * Real.pi * k / sides + rotation * Real.pi / 180),
   radius * Real.sin (2 * Real.pi * k / sides + rotation * Real.pi / 180))

/-- Embedding of the art-mode vertex generation (`src/poly.py` lines 556-558):
`np.linspace(0, 2*np.pi, sides + 1) + np.radians(rotation)`, mapped through
`radius * (cos, sin)`. -/
def art_polygon_vertices (sides : ℕ) (radius rotation : ℝ) : List (ℝ × ℝ) :=
  (List.range (sides + 1)).map (artVertex sides radius rotation)

/-- The four branches of the calculator's "What do you know?" selector
(`src/poly.py` lines 323-341). -/
inductive InputType where
  | sideLength
  | perimeterKind
  | areaKind
  | apothemKind

/-- Embedding of the side-length derivation of the Polygon Properties
Calculator module (`src/poly.py` lines 328-341): each branch computes
`side_length` from the one known value.  The area branch (lines 336-338) first
estimates the apothem as `sqrt(known_value * 2 / calc_sides / tan(pi /
calc_sides))` and then converts that estimate to a side length. -/
def derive_side_length (calc_sides : ℤ) (known_value : ℝ) :
    InputType → ℝ
  | InputType.sideLength => known_value
  | InputType.perimeterKind => known_value / (calc_sides : ℝ)
  | InputType.areaKind =>
      let apothem_est :=
        Real.sqrt (known_value * 2 / (calc_sides : ℝ) /
          Real.tan (Real.pi / (calc_sides : ℝ)))
      2 * apothem_est * Real.tan (Real.pi / (calc_sides : ℝ))
  | InputType.apothemKind =>
      2 * known_value * Real.tan (Real.pi / (calc_sides : ℝ))

/-- Embedding of the radius computation shared by `plot_polygon_matplotlib`
(`src/poly.py` line 95) and `plot_polygon_plotly` (line 130):
`radius = side_length / (2 * math.sin(math.pi / n_sides))`. -/
def side_length_to_radius (n_sides : ℕ) (side_length : ℝ) : ℝ :=
  side_length / (2 * Real.sin (Real.pi / (n_sides : ℝ)))

/-- Embedding of the vertex computation of `plot_polygon_matplotlib`
(`src/poly.py` lines 95-97): convert the side length to a radius, then call
`create_regular_polygon` with the default center `(0, 0)`. -/
def plot_polygon_matplotlib_vertices (n_sides : ℕ) (side_length : ℝ) :
    List (ℝ × ℝ) :=
  create_regular_polygon n_sides (0, 0) (side_length_to_radius n_sides side_length)

/-- Embedding of the vertex computation of `plot_polygon_plotly`
(`src/poly.py` lines 130-131): identical to the matplotlib path. -/
def plot_polygon_plotly_vertices (n_sides : ℕ) (side_length : ℝ) :
    List (ℝ × ℝ) :=
  create_regular_polygon n_sides (0, 0) (side_length_to_radius n_sides side_length)

end

/-! ## Shared helper lemmas -/

/-- For `n ≥ 3` the internal angle `π / n` lies strictly between `0` and
`π / 2`. -/
lemma pi_div_lt_pi_div_two {n : ℤ} (hn : 3 ≤ n) :
    0 < Real.pi / (n : ℝ) ∧ Real.pi / (n : ℝ) < Real.pi / 2 := by
  have hn' : (3 : ℝ) ≤ (n : ℝ) := by exact_mod_cast hn
  have hnpos : (0 : ℝ) < (n : ℝ) := by linarith
  constructor
  · exact div_pos Real.pi_pos hnpos
  · exact div_lt_div_of_pos_left Real.pi_pos (by norm_num) (by linarith)

/-- For `n ≥ 3`, `tan (π / n)` is strictly positive. -/
lemma tan_pi_div_pos {n : ℤ} (hn : 3 ≤ n) : 0 < Real.tan (Real.pi / (n : ℝ)) := by
  obtain ⟨h1, h2⟩ := pi_div_lt_pi_div_two hn
  exact Real.tan_pos_of_pos_of_lt_pi_div_two h1 h2

/-- For `n ≥ 3` (as a natural number), `sin (π / n)` is strictly positive. -/
lemma sin_pi_div_pos {n : ℕ} (hn : 3 ≤ n) : 0 < Real.sin (Real.pi / (n : ℝ)) := by
  have hn' : (3 : ℝ) ≤ (n : ℝ) := by exact_mod_cast hn
  have hnpos : (0 : ℝ) < (n : ℝ) := by linarith
  apply Real.sin_pos_of_pos_of_lt_pi
  · exact div_pos Real.pi_pos hnpos
  · calc Real.pi / (n : ℝ) ≤ Real.pi / 3 := by
          apply div_le_div_of_nonneg_left Real.pi_pos.le (by norm_num) hn'
        _ < Real.pi := by linarith [Real.pi_pos]

/-- Unfolding of `calculate_polygon_properties` on the `n_sides ≥ 3` branch. -/
lemma calc_props_eq (n : ℤ) (s : ℝ) (hn : 3 ≤ n) :
    calculate_polygon_properties n s =
      some ⟨((n : ℝ) - 2) * 180 / (n : ℝ), 360 / (n : ℝ), (n : ℝ) * s,
        0.5 * ((n : ℝ) * s) * (s / (2 * Real.tan (Real.pi / (n : ℝ)))),
        360 / (n : ℝ), s / (2 * Real.tan (Real.pi / (n : ℝ)))⟩ := by
  unfold calculate_polygon_properties
  rw [if_neg (by omega)]

/-! ## C1 -/

/-- C1: for every integer `sides ≥ 3` and real `sideLength > 0`,
`calculate_polygon_properties` returns exactly the record with
`interiorAngleDegrees = (sides - 2) * 180 / sides`,
`exteriorAngleDegrees = 360 / sides`, `centralAngleDegrees = 360 / sides`,
`perimeter = sides * sideLength`,
`apothem = sideLength / (2 * tan (π / sides))`, and
`area = 0.5 * perimeter * apothem` (angles in degrees, the tangent taken at
the radian argument `π / sides`). -/
theorem calculate_polygon_properties_formulas (n : ℤ) (s : ℝ)
    (hn : 3 ≤ n) (hs : 0 < s) :
    calculate_polygon_properties n s =
      some ⟨((n : ℝ) - 2) * 180 / (n : ℝ), 360 / (n : ℝ), (n : ℝ) * s,
        0.5 * ((n : ℝ) * s) * (s / (2 * Real.tan (Real.pi / (n : ℝ)))),
        360 / (n : ℝ), s / (2 * Real.tan (Real.pi / (n : ℝ)))⟩ := by
  unfold calculate_polygon_properties
  rw [if_neg (by omega)]

/-- Witness for C1 at `sides = 4`, `sideLength = 1`. -/
theorem calculate_polygon_properties_formulas_witness :
    calculate_polygon_properties 4 1 =
      some ⟨(((4 : ℤ) : ℝ) - 2) * 180 / ((4 : ℤ) : ℝ), 360 / ((4 : ℤ) : ℝ),
        ((4 : ℤ) : ℝ) * 1,
        0.5 * (((4 : ℤ) : ℝ) * 1) * (1 / (2 * Real.tan (Real.pi / ((4 : ℤ) : ℝ)))),
        360 / ((4 : ℤ) : ℝ), 1 / (2 * Real.tan (Real.pi / ((4 : ℤ) : ℝ)))⟩ :=
  calculate_polygon_properties_formulas 4 1 (by decide) one_pos

/-! ## C2 -/

/-- C2 counterexample: the claim says `computeProperties(2, 1)` and
`generateVertices(2, ...)` both fail with `InvalidPolygonError` and that no
invalid input silently returns a value.  In the code neither call raises:
`calculate_polygon_properties(2, 1)` silently returns the value `None`, and
`create_regular_polygon(2, (0,0), 1)` succeeds, returning 3 points. -/
theorem invalid_input_error_counterexample :
    calculate_polygon_properties 2 1 = none ∧
    (create_regular_polygon 2 ((0 : ℝ), (0 : ℝ)) 1).length = 3 := by
  constructor
  · unfold calculate_polygon_properties
    rw [if_pos (by decide)]
  · simp [create_regular_polygon]

/-- C2 amended: invalid inputs never raise.  `calculate_polygon_properties`
returns the value `None` for every `sides < 3` and any `sideLength` (no
exception, and `sideLength` itself is never validated), and
`create_regular_polygon` performs no validation at all: for every side count
`m` it succeeds and returns `m + 1` points. -/
theorem invalid_input_behavior (n : ℤ) (s : ℝ) (hn : n < 3)
    (m : ℕ) (center : ℝ × ℝ) (radius : ℝ) :
    calculate_polygon_properties n s = none ∧
    (create_regular_polygon m center radius).length = m + 1 := by
  constructor
  · unfold calculate_polygon_properties
    rw [if_pos hn]
  · simp [create_regular_polygon]

/-- Witness for the amended C2 at `sides = 2`, `sideLength = 1`,
`center = (0,0)`, `radius = 1`. -/
theorem invalid_input_behavior_witness :
    calculate_polygon_properties 2 1 = none ∧
    (create_regular_polygon 2 ((0 : ℝ), (0 : ℝ)) 1).length = 2 + 1 :=
  invalid_input_behavior 2 1 (by decide) 2 ((0 : ℝ), (0 : ℝ)) 1

/-! ## C8 -/

/-- C8: for every valid input (integer `sides ≥ 3`, `sideLength > 0`) the
exterior angle and the central angle returned by
`calculate_polygon_properties` are equal (both are `360 / sides`). -/
theorem exterior_eq_central (n : ℤ) (s : ℝ) (hn : 3 ≤ n) (hs : 0 < s) :
    ∃ p, calculate_polygon_properties n s = some p ∧
      p.exterior_angle = p.central_angle :=
  ⟨_, calc_props_eq n s hn, rfl⟩

/-- Witness for C8 at `sides = 6`, `sideLength = 2`. -/
theorem exterior_eq_central_witness :
    ∃ p, calculate_polygon_properties 6 2 = some p ∧
      p.exterior_angle = p.central_angle :=
  exterior_eq_central 6 2 (by decide) two_pos

/-! ## C9 -/

/-- C9: for all integers `sides ∈ [3, 1000]` and every `sideLength > 0`, the
interior and exterior angles returned by `calculate_polygon_properties` sum to
exactly `180` degrees (hence certainly within the 1e-9 tolerance). -/
theorem interior_add_exterior_eq_180 (n : ℤ) (s : ℝ)
    (h3 : 3 ≤ n) (h1000 : n ≤ 1000) (hs : 0 < s) :
    ∃ p, calculate_polygon_properties n s = some p ∧
      p.interior_angle + p.exterior_angle = 180 := by
  refine ⟨_, calc_props_eq n s h3, ?_⟩
  have hn' : (3 : ℝ) ≤ (n : ℝ) := by exact_mod_cast h3
  have hne : (n : ℝ) ≠ 0 := by linarith
  show ((n : ℝ) - 2) * 180 / (n : ℝ) + 360 / (n : ℝ) = 180
  field_simp
  ring

/-- Witness for C9 at `sides = 5`, `sideLength = 1`. -/
theorem interior_add_exterior_eq_180_witness :
    ∃ p, calculate_polygon_properties 5 1 = some p ∧
      p.interior_angle + p.exterior_angle = 180 :=
  interior_add_exterior_eq_180 5 1 (by decide) (by decide) one_pos

/-! ## C10 -/

/-- C10: `calculate_polygon_properties` never raises.  For every integer
`n_sides < 3` and any `side_length` it returns `None`; for every
`n_sides ≥ 3` it returns a property record for every real `side_length`
without validating its sign, and when `side_length ≤ 0` the returned
`perimeter = n_sides * side_length` and
`apothem = side_length / (2 * tan (π / n_sides))` are `≤ 0` rather than an
error being raised. -/
theorem calculate_polygon_properties_never_raises :
    (∀ (n : ℤ) (s : ℝ), n < 3 → calculate_polygon_properties n s = none) ∧
    (∀ (n : ℤ) (s : ℝ), 3 ≤ n → ∃ p, calculate_polygon_properties n s = some p ∧
      p.perimeter = (n : ℝ) * s ∧
      p.apothem = s / (2 * Real.tan (Real.pi / (n : ℝ))) ∧
      (s ≤ 0 → p.perimeter ≤ 0 ∧ p.apothem ≤ 0)) := by
  constructor
  · intro n s hn
    unfold calculate_polygon_properties
    rw [if_pos hn]
  · intro n s hn
    refine ⟨_, calc_props_eq n s hn, rfl, rfl, fun hs => ?_⟩
    have ht := tan_pi_div_pos hn
    have hn' : (3 : ℝ) ≤ (n : ℝ) := by exact_mod_cast hn
    constructor
    · show (n : ℝ) * s ≤ 0
      nlinarith
    · show s / (2 * Real.tan (Real.pi / (n : ℝ))) ≤ 0
      apply div_nonpos_of_nonpos_of_nonneg hs
      positivity

/-- Witness for C10: `calculate_polygon_properties 2 1` is `None`, and at
`sides = 3`, `side_length = -1` a record with nonpositive perimeter and
apothem is returned. -/
theorem calculate_polygon_properties_never_raises_witness :
    calculate_polygon_properties 2 1 = none ∧
    ∃ p, calculate_polygon_properties 3 (-1) = some p ∧
      p.perimeter ≤ 0 ∧ p.apothem ≤ 0 := by
  refine ⟨calculate_polygon_properties_never_raises.1 2 1 (by decide), ?_⟩
  obtain ⟨p, hp, -, -, h⟩ :=
    calculate_polygon_properties_never_raises.2 3 (-1) (by decide)
  exact ⟨p, hp, h (by norm_num)⟩

/-! ## C3 -/

/-- Indexing a mapped range. -/
lemma range_map_getElem {α : Type} (f : ℕ → α) (n k : ℕ) (hk : k < n) :
    ((List.range n).map f)[k]? = some (f k) := by
  simp [List.getElem?_map, List.getElem?_range, hk]

/-- For `n ≠ 0`, the final linspace angle `2π·n/n` is `2π`. -/
lemma last_angle_eq {n : ℕ} (hn : 3 ≤ n) :
    2 * Real.pi * (n : ℝ) / (n : ℝ) = 2 * Real.pi := by
  have hne : (n : ℝ) ≠ 0 := Nat.cast_ne_zero.mpr (by omega)
  field_simp

/-- C3: vertex generation.  `create_regular_polygon` (the `generateVertices`
of the spec, rotation fixed at `0`) returns exactly `sides + 1` points, the
`k`-th at angle `k·2π/sides` mapped through `θ ↦ center + radius·(cos θ, sin θ)`;
the last point equals the first (closed loop) and the first is
`(center.x + radius, center.y)`.  The art-mode loop, which is where the code
applies a rotation (with center fixed at the origin), likewise returns
`sides + 1` points at the same angles offset by `rotationDegrees·π/180`, with
the last equal to the first. -/
theorem create_regular_polygon_vertices (n : ℕ) (center : ℝ × ℝ)
    (radius rotation : ℝ) (hn : 3 ≤ n) (hr : 0 < radius) :
    (create_regular_polygon n center radius).length = n + 1 ∧
    (∀ k, k ≤ n → (create_regular_polygon n center radius)[k]? =
      some (center.1 + radius * Real.cos (2 * Real.pi * k / n),
            center.2 + radius * Real.sin (2 * Real.pi * k / n))) ∧
    (create_regular_polygon n center radius)[n]? =
      (create_regular_polygon n center radius)[0]? ∧
    (create_regular_polygon n center radius)[0]? =
      some (center.1 + radius, center.2) ∧
    (art_polygon_vertices n radius rotation).length = n + 1 ∧
    (∀ k, k ≤ n → (art_polygon_vertices n radius rotation)[k]? =
      some (radius * Real.cos (2 * Real.pi * k / n + rotation * Real.pi / 180),
            radius * Real.sin (2 * Real.pi * k / n + rotation * Real.pi / 180))) ∧
    (art_polygon_vertices n radius rotation)[n]? =
      (art_polygon_vertices n radius rotation)[0]? := by
  have hidx : ∀ k, k ≤ n → (create_regular_polygon n center radius)[k]? =
      some (polyVertex n center radius k) := by
    intro k hk
    exact range_map_getElem _ _ _ (by omega)
  have haidx : ∀ k, k ≤ n → (art_polygon_vertices n radius rotation)[k]? =
      some (artVertex n radius rotation k) := by
    intro k hk
    exact range_map_getElem _ _ _ (by omega)
  refine ⟨by simp [create_regular_polygon], fun k hk => hidx k hk, ?_, ?_,
    by simp [art_polygon_vertices], fun k hk => haidx k hk, ?_⟩
  · rw [hidx n le_rfl, hidx 0 (Nat.zero_le n)]
    unfold polyVertex
    rw [last_angle_eq hn]
    norm_num [Real.cos_two_pi, Real.sin_two_pi]
  · rw [hidx 0 (Nat.zero_le n)]
    unfold polyVertex
    norm_num
  · rw [haidx n le_rfl, haidx 0 (Nat.zero_le n)]
    unfold artVertex
    rw [last_angle_eq hn]
    norm_num [add_comm (2 * Real.pi), Real.cos_add_two_pi, Real.sin_add_two_pi]

/-- Witness for C3 at `sides = 4`, `center = (0,0)`, `radius = 1`,
`rotationDegrees = 0`: 5 points, first `(0 + 1, 0)`, last equal to first. -/
theorem create_regular_polygon_vertices_witness :
    (create_regular_polygon 4 ((0 : ℝ), (0 : ℝ)) 1).length = 4 + 1 ∧
    (create_regular_polygon 4 ((0 : ℝ), (0 : ℝ)) 1)[4]? =
      (create_regular_polygon 4 ((0 : ℝ), (0 : ℝ)) 1)[0]? ∧
    (create_regular_polygon 4 ((0 : ℝ), (0 : ℝ)) 1)[0]? =
      some ((0 : ℝ) + 1, (0 : ℝ)) :=
  ⟨(create_regular_polygon_vertices 4 ((0 : ℝ), (0 : ℝ)) 1 0 (by decide) one_pos).1,
   (create_regular_polygon_vertices 4 ((0 : ℝ), (0 : ℝ)) 1 0 (by decide) one_pos).2.2.1,
   (create_regular_polygon_vertices 4 ((0 : ℝ), (0 : ℝ)) 1 0 (by decide) one_pos).2.2.2.1⟩

/-! ## C4 -/

/-- C4: inverse-derivation round trips.  For every integer `sides ≥ 3` and
`s > 0`, feeding the perimeter returned by `calculate_polygon_properties`
through the perimeter branch (`sideLength = perimeter / sides`) gives back
exactly `s`, and feeding the apothem through the apothem branch
(`sideLength = 2 · apothem · tan (π / sides)`) also gives back exactly `s`
(exact equality, hence within the claimed 1e-9). -/
theorem derive_side_length_round_trip (n : ℤ) (s : ℝ) (hn : 3 ≤ n) (hs : 0 < s) :
    ∃ p, calculate_polygon_properties n s = some p ∧
      derive_side_length n p.perimeter InputType.perimeterKind = s ∧
      derive_side_length n p.apothem InputType.apothemKind = s := by
  have hn' : (3 : ℝ) ≤ (n : ℝ) := by exact_mod_cast hn
  have hne : (n : ℝ) ≠ 0 := by linarith
  have ht := tan_pi_div_pos hn
  have htne : Real.tan (Real.pi / (n : ℝ)) ≠ 0 := ne_of_gt ht
  refine ⟨_, calc_props_eq n s hn, ?_, ?_⟩
  · show (n : ℝ) * s / (n : ℝ) = s
    field_simp
  · show 2 * (s / (2 * Real.tan (Real.pi / (n : ℝ)))) *
      Real.tan (Real.pi / (n : ℝ)) = s
    field_simp
    ring

/-- Witness for C4 at `sides = 3`, `sideLength = 1`. -/
theorem derive_side_length_round_trip_witness :
    ∃ p, calculate_polygon_properties 3 1 = some p ∧
      derive_side_length 3 p.perimeter InputType.perimeterKind = 1 ∧
      derive_side_length 3 p.apothem InputType.apothemKind = 1 :=
  derive_side_length_round_trip 3 1 (by decide) one_pos

/-! ## C5 and C6 shared algebra -/

/-- The area branch of the calculator evaluates to
`√2 · √(4·A·tan(π/n) / n)`: the `√2` factor is the gap between the code's
apothem-estimate chain and the exact closed form. -/
lemma derive_area_eq (n : ℤ) (A : ℝ) (hn : 3 ≤ n) (hA : 0 < A) :
    derive_side_length n A InputType.areaKind =
      Real.sqrt 2 * Real.sqrt (4 * A * Real.tan (Real.pi / (n : ℝ)) / (n : ℝ)) := by
  have ht := tan_pi_div_pos hn
  have hn' : (3 : ℝ) ≤ (n : ℝ) := by exact_mod_cast hn
  have hnpos : (0 : ℝ) < (n : ℝ) := by linarith
  have htne : Real.tan (Real.pi / (n : ℝ)) ≠ 0 := ne_of_gt ht
  show 2 * Real.sqrt (A * 2 / (n : ℝ) / Real.tan (Real.pi / (n : ℝ))) *
      Real.tan (Real.pi / (n : ℝ)) =
    Real.sqrt 2 * Real.sqrt (4 * A * Real.tan (Real.pi / (n : ℝ)) / (n : ℝ))
  have key : 2 * Real.sqrt (A * 2 / (n : ℝ) / Real.tan (Real.pi / (n : ℝ))) *
      Real.tan (Real.pi / (n : ℝ)) =
      Real.sqrt ((2 * Real.tan (Real.pi / (n : ℝ))) ^ 2 *
        (A * 2 / (n : ℝ) / Real.tan (Real.pi / (n : ℝ)))) := by
    rw [Real.sqrt_mul (by positivity), Real.sqrt_sq (by positivity)]
    ring
  rw [key, show (2 * Real.tan (Real.pi / (n : ℝ))) ^ 2 *
      (A * 2 / (n : ℝ) / Real.tan (Real.pi / (n : ℝ))) =
      2 * (4 * A * Real.tan (Real.pi / (n : ℝ)) / (n : ℝ)) from by
    field_simp
    ring]
  rw [Real.sqrt_mul (by norm_num)]

/-! ## C5 -/

/-- C5: the area branch follows the spec's reference chain — it first
estimates the apothem as `√(2·A / (sides · tan (π / sides)))` and returns
`2 · estimate · tan (π / sides)` — and this value is not the exact closed
form `√(4·A·tan (π / sides) / sides)` (it exceeds it by a factor `√2`). -/
theorem derive_side_length_area_branch (n : ℤ) (A : ℝ) (hn : 3 ≤ n) (hA : 0 < A) :
    derive_side_length n A InputType.areaKind =
      2 * Real.sqrt (2 * A / ((n : ℝ) * Real.tan (Real.pi / (n : ℝ)))) *
        Real.tan (Real.pi / (n : ℝ)) ∧
    derive_side_length n A InputType.areaKind ≠
      Real.sqrt (4 * A * Real.tan (Real.pi / (n : ℝ)) / (n : ℝ)) := by
  have ht := tan_pi_div_pos hn
  have hn' : (3 : ℝ) ≤ (n : ℝ) := by exact_mod_cast hn
  have hnpos : (0 : ℝ) < (n : ℝ) := by linarith
  constructor
  · show 2 * Real.sqrt (A * 2 / (n : ℝ) / Real.tan (Real.pi / (n : ℝ))) *
        Real.tan (Real.pi / (n : ℝ)) = _
    rw [show A * 2 / (n : ℝ) / Real.tan (Real.pi / (n : ℝ)) =
        2 * A / ((n : ℝ) * Real.tan (Real.pi / (n : ℝ))) from by
      field_simp
      ring]
  · rw [derive_area_eq n A hn hA]
    have hX : 0 < Real.sqrt (4 * A * Real.tan (Real.pi / (n : ℝ)) / (n : ℝ)) :=
      Real.sqrt_pos.mpr (by positivity)
    have h2 : 1 < Real.sqrt 2 := by
      have h := Real.sqrt_lt_sqrt (by norm_num : (0 : ℝ) ≤ 1) (by norm_num : (1 : ℝ) < 2)
      rwa [Real.sqrt_one] at h
    intro h
    nlinarith

/-- Witness for C5 at `sides = 4`, `area = 1`. -/
theorem derive_side_length_area_branch_witness :
    derive_side_length 4 1 InputType.areaKind =
      2 * Real.sqrt (2 * 1 / (((4 : ℤ) : ℝ) * Real.tan (Real.pi / ((4 : ℤ) : ℝ)))) *
        Real.tan (Real.pi / ((4 : ℤ) : ℝ)) ∧
    derive_side_length 4 1 InputType.areaKind ≠
      Real.sqrt (4 * 1 * Real.tan (Real.pi / ((4 : ℤ) : ℝ)) / ((4 : ℤ) : ℝ)) :=
  derive_side_length_area_branch 4 1 (by decide) one_pos

/-! ## C6 -/

/-- C6: the area inverse is off by a constant factor.  For every integer
`sides ≥ 3` and `A > 0`, the derived side length equals `√2` times the exact
solution `√(4·A·tan (π / sides) / sides)`, and recomputing the area from the
derived side length through `calculate_polygon_properties` yields exactly
`2·A`: the area path does not round-trip. -/
theorem derive_area_does_not_round_trip (n : ℤ) (A : ℝ) (hn : 3 ≤ n) (hA : 0 < A) :
    derive_side_length n A InputType.areaKind =
      Real.sqrt 2 * Real.sqrt (4 * A * Real.tan (Real.pi / (n : ℝ)) / (n : ℝ)) ∧
    ∃ p, calculate_polygon_properties n (derive_side_length n A InputType.areaKind) =
        some p ∧ p.area = 2 * A := by
  have ht := tan_pi_div_pos hn
  have hn' : (3 : ℝ) ≤ (n : ℝ) := by exact_mod_cast hn
  have hnpos : (0 : ℝ) < (n : ℝ) := by linarith
  have htne : Real.tan (Real.pi / (n : ℝ)) ≠ 0 := ne_of_gt ht
  have hne : (n : ℝ) ≠ 0 := ne_of_gt hnpos
  refine ⟨derive_area_eq n A hn hA, _, calc_props_eq n _ hn, ?_⟩
  show 0.5 * ((n : ℝ) * derive_side_length n A InputType.areaKind) *
      (derive_side_length n A InputType.areaKind /
        (2 * Real.tan (Real.pi / (n : ℝ)))) = 2 * A
  show 0.5 * ((n : ℝ) *
      (2 * Real.sqrt (A * 2 / (n : ℝ) / Real.tan (Real.pi / (n : ℝ))) *
        Real.tan (Real.pi / (n : ℝ)))) *
      (2 * Real.sqrt (A * 2 / (n : ℝ) / Real.tan (Real.pi / (n : ℝ))) *
        Real.tan (Real.pi / (n : ℝ)) /
        (2 * Real.tan (Real.pi / (n : ℝ)))) = 2 * A
  have hself : Real.sqrt (A * 2 / (n : ℝ) / Real.tan (Real.pi / (n : ℝ))) *
      Real.sqrt (A * 2 / (n : ℝ) / Real.tan (Real.pi / (n : ℝ))) =
      A * 2 / (n : ℝ) / Real.tan (Real.pi / (n : ℝ)) :=
    Real.mul_self_sqrt (by positivity)
  have hstep : 2 * Real.sqrt (A * 2 / (n : ℝ) / Real.tan (Real.pi / (n : ℝ))) *
      Real.tan (Real.pi / (n : ℝ)) / (2 * Real.tan (Real.pi / (n : ℝ))) =
      Real.sqrt (A * 2 / (n : ℝ) / Real.tan (Real.pi / (n : ℝ))) := by
    rw [div_eq_iff (mul_pos two_pos ht).ne']
    ring
  rw [hstep, show 0.5 * ((n : ℝ) *
      (2 * Real.sqrt (A * 2 / (n : ℝ) / Real.tan (Real.pi / (n : ℝ))) *
        Real.tan (Real.pi / (n : ℝ)))) *
      Real.sqrt (A * 2 / (n : ℝ) / Real.tan (Real.pi / (n : ℝ))) =
      (n : ℝ) * Real.tan (Real.pi / (n : ℝ)) *
        (Real.sqrt (A * 2 / (n : ℝ) / Real.tan (Real.pi / (n : ℝ))) *
          Real.sqrt (A * 2 / (n : ℝ) / Real.tan (Real.pi / (n : ℝ)))) from by
    ring]
  rw [hself]
  field_simp
  ring

/-- Witness for C6 at `sides = 3`, `area = 1`. -/
theorem derive_area_does_not_round_trip_witness :
    derive_side_length 3 1 InputType.areaKind =
      Real.sqrt 2 * Real.sqrt (4 * 1 * Real.tan (Real.pi / ((3 : ℤ) : ℝ)) / ((3 : ℤ) : ℝ)) ∧
    ∃ p, calculate_polygon_properties 3 (derive_side_length 3 1 InputType.areaKind) =
        some p ∧ p.area = 2 * 1 :=
  derive_area_does_not_round_trip 3 1 (by decide) one_pos

/-! ## C7 -/

/-- Squared chord length between two points of a circle of radius `r`. -/
lemma chord_sq (r a b : ℝ) :
    (r * Real.cos a - r * Real.cos b) ^ 2 + (r * Real.sin a - r * Real.sin b) ^ 2 =
      r ^ 2 * (2 - 2 * Real.cos (b - a)) := by
  rw [Real.cos_sub]
  have h1 := Real.sin_sq_add_cos_sq a
  have h2 := Real.sin_sq_add_cos_sq b
  nlinarith [h1, h2]

/-- Double-angle identity in the form needed for the chord length. -/
lemma cos_double_as_sin_sq (x : ℝ) :
    Real.cos (2 * x) = 1 - 2 * Real.sin x ^ 2 := by
  have h := Real.sin_sq_add_cos_sq x
  rw [Real.cos_two_mul]
  linarith

/-- C7: `side_length_to_radius` is the circumradius conversion
`sideLength / (2·sin (π / sides))`, it is the radius handed to
`create_regular_polygon` by both plotting paths when a polygon is specified
by side length, and it really is the circumradius for that edge length: every
vertex lies at distance `radius` from the center and every pair of
consecutive vertices lies at distance `sideLength` (both stated via squared
distances). -/
theorem side_length_to_radius_circumradius (n : ℕ) (s : ℝ) (k : ℕ)
    (hn : 3 ≤ n) (hs : 0 < s) :
    side_length_to_radius n s = s / (2 * Real.sin (Real.pi / (n : ℝ))) ∧
    plot_polygon_matplotlib_vertices n s =
      create_regular_polygon n (0, 0) (side_length_to_radius n s) ∧
    plot_polygon_plotly_vertices n s =
      create_regular_polygon n (0, 0) (side_length_to_radius n s) ∧
    ((polyVertex n (0, 0) (side_length_to_radius n s) k).1 -
        (polyVertex n (0, 0) (side_length_to_radius n s) (k + 1)).1) ^ 2 +
      ((polyVertex n (0, 0) (side_length_to_radius n s) k).2 -
        (polyVertex n (0, 0) (side_length_to_radius n s) (k + 1)).2) ^ 2 = s ^ 2 ∧
    (polyVertex n (0, 0) (side_length_to_radius n s) k).1 ^ 2 +
      (polyVertex n (0, 0) (side_length_to_radius n s) k).2 ^ 2 =
      side_length_to_radius n s ^ 2 := by
  have hsin := sin_pi_div_pos hn
  have hne : Real.sin (Real.pi / (n : ℝ)) ≠ 0 := ne_of_gt hsin
  have hnR : (0 : ℝ) < (n : ℝ) := by
    have : (3 : ℝ) ≤ (n : ℝ) := by exact_mod_cast hn
    linarith
  refine ⟨rfl, rfl, rfl, ?_, ?_⟩
  · unfold polyVertex
    push_cast
    simp only [zero_add]
    rw [chord_sq]
    have hang : 2 * Real.pi * ((k : ℝ) + 1) / (n : ℝ) -
        2 * Real.pi * (k : ℝ) / (n : ℝ) = 2 * (Real.pi / (n : ℝ)) := by
      field_simp
      ring
    rw [hang, cos_double_as_sin_sq]
    unfold side_length_to_radius
    field_simp
    ring
  · unfold polyVertex
    simp only [zero_add]
    have h := Real.sin_sq_add_cos_sq (2 * Real.pi * (k : ℝ) / (n : ℝ))
    nlinarith [h]

/-- Witness for C7 at `sides = 4`, `sideLength = 1`, `k = 0`. -/
theorem side_length_to_radius_circumradius_witness :
    side_length_to_radius 4 1 = 1 / (2 * Real.sin (Real.pi / ((4 : ℕ) : ℝ))) ∧
    plot_polygon_matplotlib_vertices 4 1 =
      create_regular_polygon 4 (0, 0) (side_length_to_radius 4 1) ∧
    plot_polygon_plotly_vertices 4 1 =
      create_regular_polygon 4 (0, 0) (side_length_to_radius 4 1) ∧
    ((polyVertex 4 (0, 0) (side_length_to_radius 4 1) 0).1 -
        (polyVertex 4 (0, 0) (side_length_to_radius 4 1) (0 + 1)).1) ^ 2 +
      ((polyVertex 4 (0, 0) (side_length_to_radius 4 1) 0).2 -
        (polyVertex 4 (0, 0) (side_length_to_radius 4 1) (0 + 1)).2) ^ 2 = 1 ^ 2 ∧
    (polyVertex 4 (0, 0) (side_length_to_radius 4 1) 0).1 ^ 2 +
      (polyVertex 4 (0, 0) (side_length_to_radius 4 1) 0).2 ^ 2 =
      side_length_to_radius 4 1 ^ 2 :=
  side_length_to_radius_circumradius 4 1 0 (by decide) one_pos
